import Mathlib

/-!
Verification of the Durable-Chatbot repository against its specification.

The embedding below translates, into Lean, the parts of the repository that
the claims are about:

* `src/chatbot_backend/shared/db_schema.sql` — the `public.conversations`
  turn table (columns, `CHECK (speaker IN ('user', 'response'))`, the
  non-unique index `idx_conversations_order` on
  `(workflow_id, message_order)`) and the `public.conversation_summaries`
  table (`workflow_id VARCHAR(255) UNIQUE NOT NULL`).
* `src/web-ui/src/app/api/chat/send/route.ts` — the `POST` submit handler
  and `callPythonChatbot`.
* `src/web-ui/src/app/api/chat/send-and-wait/route.ts` — the `POST`
  handler, `getMessageCount` and `waitForResponse`.
* the history `GET` route with `getConversation` and `getAllConversations`.

External calls made by the routes (token verification, user lookup, the SQL
queries, the spawned backend script) are modelled as oracle inputs: each
handler receives the outcome of those calls and the claims quantify over
all outcomes.  A `user_id` column appears in every query and in
`ConversationMessage` of `src/web-ui/src/types/index.ts` (it is added by a
user-schema migration that is not under `src/`), so rows carry it here.
-/

namespace DurableChatbot

/-- A row of `public.conversations` (db_schema.sql lines 2–9): serial
primary key `id`, `workflow_id`, `speaker`, `message`, `message_order`
(plain `INTEGER`, no uniqueness constraint), plus the `user_id` used by
every query in the routes.  `created_at` is never inspected by the code
under verification and is omitted. -/
structure ConversationRow where
  id : Nat
  workflow_id : String
  speaker : String
  message : String
  message_order : Int
  user_id : Nat
  deriving DecidableEq, Repr

/-- The schema's check constraint `CHECK (speaker IN ('user', 'response'))`. -/
def speakerValid (s : String) : Bool :=
  s == "user" || s == "response"

/-- A row satisfies the column constraints of `public.conversations`:
the speaker check; the `NOT NULL` constraints hold by typing. -/
def rowValid (r : ConversationRow) : Bool :=
  speakerValid r.speaker

/-- A table state the `conversations` schema can hold: every row passes the
check constraint and the serial primary keys are pairwise distinct.  The
index `idx_conversations_order` on `(workflow_id, message_order)` is *not*
`UNIQUE`, so no condition on `message_order` appears here. -/
def tableAdmissible (t : List ConversationRow) : Prop :=
  (∀ r ∈ t, rowValid r = true) ∧ (t.map (fun r => r.id)).Nodup

/-- The sequence numbers (`message_order`) persisted for one conversation. -/
def seqNumbers (t : List ConversationRow) (wid : String) : List Int :=
  (t.filter (fun r => r.workflow_id == wid)).map (fun r => r.message_order)

/-- The spec's per-conversation sequence-number invariant, as stated:
no duplicates, and the numbers are exactly 1..n (contiguous from 1, hence
no gaps). -/
def contiguousFromOne (l : List Int) : Prop :=
  l.Nodup ∧ ∀ i : Nat, i < l.length → ((i : Int) + 1) ∈ l

/-- `StorageError` of the Persistence Gateway contract (spec §4.5). -/
inductive StorageError where
  | Conflict
  | ConstraintViolation
  deriving DecidableEq, Repr

/-- A plain SQL `INSERT` of one turn row into `public.conversations` as the
schema defines it: the row must pass the check constraint and bring a fresh
primary key; there is no unique constraint on
`(workflow_id, message_order)`, so nothing else can fail.  The insert never
modifies existing rows. -/
def insertTurn (t : List ConversationRow) (r : ConversationRow) :
    Except StorageError (List ConversationRow) :=
  if rowValid r && t.all (fun x => x.id != r.id) then .ok (t ++ [r])
  else .error .ConstraintViolation

/-- A row of `public.conversation_summaries` (db_schema.sql lines 11–17):
serial `id`, `workflow_id VARCHAR(255) UNIQUE NOT NULL`, nullable
`summary`, plus the `user_id` used by the history queries. -/
structure SummaryRow where
  id : Nat
  workflow_id : String
  summary : Option String
  user_id : Nat
  deriving DecidableEq, Repr

/-- A table state the `conversation_summaries` schema can hold: distinct
primary keys and, because of `workflow_id ... UNIQUE`, pairwise distinct
workflow ids. -/
def summariesAdmissible (t : List SummaryRow) : Prop :=
  (t.map (fun s => s.id)).Nodup ∧ (t.map (fun s => s.workflow_id)).Nodup

/-- Modelled from the spec: `upsertSummary(conversationId, text)` of the
Persistence Gateway (§4.5), "upsert semantics (create-if-absent, else
overwrite)".  The Python writer that performs the upsert is not under
`src/`; only its target table `conversation_summaries` is.  If a row for
the conversation exists its `summary` is overwritten, otherwise a new row
(with a fresh serial id) is appended. -/
def upsertSummary (t : List SummaryRow) (wid : String) (text : String)
    (freshId : Nat) (uid : Nat) : List SummaryRow :=
  if t.any (fun s => s.workflow_id == wid) then
    t.map (fun s => if s.workflow_id == wid then { s with summary := some text } else s)
  else
    t ++ [⟨freshId, wid, some text, uid⟩]

/-- The comparison `ORDER BY message_order ASC` used by every history query. -/
def byOrder (a b : ConversationRow) : Prop :=
  a.message_order ≤ b.message_order

instance : DecidableRel byOrder :=
  fun a b => inferInstanceAs (Decidable (a.message_order ≤ b.message_order))

instance : IsTotal ConversationRow byOrder :=
  ⟨fun a b => le_total a.message_order b.message_order⟩

instance : IsTrans ConversationRow byOrder :=
  ⟨fun _ _ _ h₁ h₂ => le_trans h₁ h₂⟩

/-- Strictly ascending `message_order`. -/
def strictByOrder (a b : ConversationRow) : Prop :=
  a.message_order < b.message_order

/-- The rows the history queries select:
`WHERE workflow_id = $wid AND user_id = $uid`. -/
def convRows (t : List ConversationRow) (uid : Nat) (wid : String) :
    List ConversationRow :=
  t.filter (fun r => r.workflow_id == wid && r.user_id == uid)

/-- The history read path: the `SELECT ... ORDER BY message_order ASC`
query of `getConversation` (and of each `waitForResponse` poll), applied to
a table state `t`. -/
def loadHistory (t : List ConversationRow) (uid : Nat) (wid : String) :
    List ConversationRow :=
  (convRows t uid wid).insertionSort byOrder

/-- The fixed fallback string `waitForResponse` returns on timeout
(send-and-wait route line 108). -/
def timeoutFallback : String :=
  "Sorry, the AI took too long to respond. Please try again or check your conversation history later."

/-- One poll iteration's check (send-and-wait route lines 89–99): if the
query returned more rows than `initialCount`, look for a `speaker =
'response'` row among the rows past `initialCount` and return its text. -/
def checkSnapshot (initialCount : Nat) (messages : List ConversationRow) :
    Option String :=
  if messages.length > initialCount then
    ((messages.drop initialCount).find? (fun m => m.speaker == "response")).map
      (fun m => m.message)
  else none

/-- `waitForResponse` (send-and-wait route lines 69–109).  The loop runs
for at most 75 polls (`maxWaitTime / pollInterval`); each element of
`polls` is the outcome of one iteration's query — `none` when the query
threw (the error is caught and the loop continues), `some msgs` the rows
returned, already ordered by the SQL `ORDER BY message_order ASC`.  When a
new `'response'` row is found its text is returned; when the iterations are
exhausted the fixed fallback string is returned. -/
def waitForResponse (initialCount : Nat) :
    List (Option (List ConversationRow)) → String
  | [] => timeoutFallback
  | none :: rest => waitForResponse initialCount rest
  | some msgs :: rest =>
    match checkSnapshot initialCount msgs with
    | some reply => reply
    | none => waitForResponse initialCount rest

/-- `getMessageCount` (send-and-wait route lines 56–67): the baseline
`SELECT COUNT(*)` for the workflow; on a query error the catch block
returns `0`. -/
def getMessageCount (countQuery : Except Unit Nat) : Nat :=
  match countQuery with
  | .ok n => n
  | .error _ => 0

/-- JavaScript truthiness of the parsed body fields: `!message` rejects
both a missing field and the empty string. -/
def truthy : Option String → Bool
  | none => false
  | some s => !(s == "")

/-- Side effects against the conversation store or the backend that a
route handler performs (user-table auth lookups are not conversation-store
operations and are not tracked). -/
inductive Effect where
  | convQuery
  | invokeChatbot
  deriving DecidableEq, Repr

/-- What a route handler produces: an HTTP status, a JSON body, and the
conversation-store / backend side effects it performed. -/
structure RouteResult (β : Type) where
  status : Nat
  body : β
  effects : List Effect
  deriving DecidableEq, Repr

/-- Body of the two chat POST routes: `{ error }` or `{ response }`. -/
inductive ChatBody where
  | errorMsg (s : String)
  | response (s : String)
  deriving DecidableEq, Repr

/-- The fixed acknowledgment `callPythonChatbot` of the send route resolves
with on a zero exit code (send route line 81). -/
def sendAck : String :=
  "Message sent to chatbot. Please check the workflow for the response or wait for timeout."

/-- Oracle inputs of the send route's `POST`: the token cookie, the
outcomes of `verifyToken` and `getUserById`, the parsed body fields, and
the exit outcome of the spawned backend script. -/
structure SendInputs where
  token : Option String
  tokenValid : Bool
  userFound : Bool
  message : Option String
  sessionId : Option String
  script : Except Unit Unit

/-- `POST` of `src/web-ui/src/app/api/chat/send/route.ts`: auth checks,
body validation, then `callPythonChatbot`; a zero exit resolves with the
fixed acknowledgment string, a failure rejects and the outer catch answers
500. -/
def sendPOST (i : SendInputs) : RouteResult ChatBody :=
  match i.token with
  | none => ⟨401, .errorMsg "Not authenticated", []⟩
  | some _ =>
    if !i.tokenValid then ⟨401, .errorMsg "Invalid token", []⟩
    else if !i.userFound then ⟨404, .errorMsg "User not found", []⟩
    else if !(truthy i.message && truthy i.sessionId) then
      ⟨400, .errorMsg "Message and sessionId are required", []⟩
    else
      match i.script with
      | .ok _ => ⟨200, .response sendAck, [.invokeChatbot]⟩
      | .error _ => ⟨500, .errorMsg "Internal server error", [.invokeChatbot]⟩

/-- Oracle inputs of the send-and-wait route's `POST`: auth and body as in
`SendInputs`, plus the baseline count query, the script outcome, and the
per-iteration poll query outcomes consumed by `waitForResponse`. -/
structure SWInputs where
  token : Option String
  tokenValid : Bool
  userFound : Bool
  message : Option String
  sessionId : Option String
  countQuery : Except Unit Nat
  script : Except Unit Unit
  polls : List (Option (List ConversationRow))

/-- `POST` of `src/web-ui/src/app/api/chat/send-and-wait/route.ts`: auth
checks, body validation, `getMessageCount`, `callPythonChatbot` (a failure
rejects into the outer catch → 500), then `waitForResponse` whose result is
answered with status 200. -/
def sendAndWaitPOST (i : SWInputs) : RouteResult ChatBody :=
  match i.token with
  | none => ⟨401, .errorMsg "Not authenticated", []⟩
  | some _ =>
    if !i.tokenValid then ⟨401, .errorMsg "Invalid token", []⟩
    else if !i.userFound then ⟨404, .errorMsg "User not found", []⟩
    else if !(truthy i.message && truthy i.sessionId) then
      ⟨400, .errorMsg "Message and sessionId are required", []⟩
    else
      match i.script with
      | .error _ => ⟨500, .errorMsg "Internal server error", [.convQuery, .invokeChatbot]⟩
      | .ok _ =>
        ⟨200, .response (waitForResponse (getMessageCount i.countQuery) i.polls),
          .convQuery :: .invokeChatbot :: i.polls.map (fun _ => .convQuery)⟩

/-- The payload `getConversation` of the history route builds: the
workflow id, the ordered messages, and the first summary row (or null). -/
structure ConvPayload where
  workflow_id : String
  messages : List ConversationRow
  summary : Option SummaryRow
  deriving DecidableEq, Repr

/-- One row of the `getAllConversations` listing query (workflow id,
summary, and the correlated `COUNT(*)` as `message_count`). -/
structure ConvListing where
  workflow_id : String
  summary : Option String
  message_count : Nat
  deriving DecidableEq, Repr

/-- `getConversation` of the history route: runs the messages query
(`ORDER BY message_order ASC`) and the summary query inside one try block;
if either throws, the catch returns `null`.  The `Except` arguments carry
the table each query would read, or the query failure. -/
def getConversation (uid : Nat) (wid : String)
    (convQ : Except Unit (List ConversationRow))
    (summQ : Except Unit (List SummaryRow)) : Option ConvPayload :=
  match convQ, summQ with
  | .ok convTable, .ok summTable =>
    some ⟨wid, loadHistory convTable uid wid,
      (summTable.filter (fun s => s.user_id == uid && s.workflow_id == wid)).head?⟩
  | _, _ => none

/-- `getAllConversations` of the history route: returns the listing rows,
or `[]` when the query throws (the catch block). -/
def getAllConversations (listQ : Except Unit (List ConvListing)) :
    List ConvListing :=
  match listQ with
  | .ok rows => rows
  | .error _ => []

/-- Body of the history `GET` route. -/
inductive HistoryBody where
  | errorMsg (s : String)
  | conversation (c : Option ConvPayload)
  | conversations (l : List ConvListing)
  deriving DecidableEq, Repr

/-- Oracle inputs of the history route's `GET`. -/
structure HistInputs where
  token : Option String
  tokenValid : Bool
  userFound : Bool
  userId : Nat
  workflowIdParam : Option String
  convQ : Except Unit (List ConversationRow)
  summQ : Except Unit (List SummaryRow)
  listQ : Except Unit (List ConvListing)

/-- `GET` of the chat-history route: auth checks, then either one
conversation (two queries) or the listing of all conversations (one
query); both data branches answer status 200. -/
def historyGET (i : HistInputs) : RouteResult HistoryBody :=
  match i.token with
  | none => ⟨401, .errorMsg "Not authenticated", []⟩
  | some _ =>
    if !i.tokenValid then ⟨401, .errorMsg "Invalid token", []⟩
    else if !i.userFound then ⟨404, .errorMsg "User not found", []⟩
    else
      match i.workflowIdParam with
      | some wid =>
        ⟨200, .conversation (getConversation i.userId wid i.convQ i.summQ),
          [.convQuery, .convQuery]⟩
      | none => ⟨200, .conversations (getAllConversations i.listQ), [.convQuery]⟩

/-- The three auth-rejection cases shared by the routes: no token cookie,
failed verification, or no user for the decoded id. -/
def authDenied (token : Option String) (tokenValid userFound : Bool) : Prop :=
  token = none ∨ tokenValid = false ∨ userFound = false

/-- Concrete rows used by witnesses and counterexamples. -/
def rowU1 : ConversationRow := ⟨1, "w", "user", "hello", 1, 7⟩

/-- A persisted assistant row (speaker tag `'response'`). -/
def rowR1 : ConversationRow := ⟨2, "w", "response", "hi there", 2, 7⟩

/-- A row that duplicates `rowU1`'s `(workflow_id, message_order)` pair. -/
def rowDup : ConversationRow := ⟨3, "w", "response", "dup", 1, 7⟩

/-! ## Claims -/

/-- C1 counterexample: the turn store admits a state in which one
conversation holds two rows with `message_order = 1` — `tableAdmissible`
holds of `[rowU1, rowDup]` (distinct primary keys, valid speakers; the
index on `(workflow_id, message_order)` is non-unique so nothing else is
checked), yet the sequence numbers `[1, 1]` of conversation `"w"` are not
duplicate-free, hence not contiguous from 1.  So contiguity/uniqueness is
not an invariant of the turn store. -/
theorem c1_counterexample :
    tableAdmissible [rowU1, rowDup] ∧
      ¬ contiguousFromOne (seqNumbers [rowU1, rowDup] "w") := by
  constructor
  · exact ⟨by decide, by decide⟩
  · intro h
    have hdup : (seqNumbers [rowU1, rowDup] "w").Nodup := h.1
    have : seqNumbers [rowU1, rowDup] "w" = [1, 1] := by rfl
    rw [this] at hdup
    simp at hdup

/-- C1 (amended): the `conversations` schema imposes no constraint on
`message_order` — appending any row whose speaker passes the check
constraint and whose primary key is fresh preserves admissibility,
whatever its sequence number (in particular one duplicating an existing
`(workflow_id, message_order)` pair, as the witness shows).  Contiguity of
sequence numbers is therefore not enforced by the turn store; it relies on
the single-writer state machine. -/
theorem c1_store_accepts_any_order (t : List ConversationRow)
    (r : ConversationRow) (ht : tableAdmissible t) (hr : rowValid r = true)
    (hid : r.id ∉ t.map (fun x => x.id)) : tableAdmissible (t ++ [r]) := by
  constructor
  · intro x hx
    rcases List.mem_append.mp hx with h | h
    · exact ht.1 x h
    · rw [List.mem_singleton.mp h]; exact hr
  · rw [List.map_append]
    rw [List.nodup_append]
    refine ⟨ht.2, List.nodup_singleton _, ?_⟩
    intro a ha
    simp only [List.map_cons, List.map_nil, List.mem_singleton]
    intro heq
    exact hid (heq ▸ ha)

/-- C1 witness: the store accepts `rowDup` (sequence number 1, already
taken by `rowU1` in conversation `"w"`) on top of `[rowU1]`. -/
theorem c1_store_accepts_any_order_witness :
    tableAdmissible ([rowU1] ++ [rowDup]) :=
  c1_store_accepts_any_order [rowU1] rowDup
    ⟨by intro r hr; rw [List.mem_singleton.mp hr]; rfl, by decide⟩
    (by rfl) (by decide)

/-- C2 counterexample: inserting `rowDup`, whose
`(workflow_id, message_order)` pair `("w", 1)` already exists in the table
(`rowU1`), is accepted by the turn store — the insert succeeds and does
not fail with `StorageError.Conflict`, because the schema has no unique
constraint on that pair. -/
theorem c2_counterexample :
    insertTurn [rowU1] rowDup = .ok ([rowU1] ++ [rowDup]) ∧
      insertTurn [rowU1] rowDup ≠ .error .Conflict := by
  refine ⟨rfl, ?_⟩
  intro h
  rw [show insertTurn [rowU1] rowDup = .ok ([rowU1] ++ [rowDup]) from rfl] at h
  exact Except.noConfusion h

/-- C2 (amended): `insertTurn` is insert-only — on success the table is
exactly the old rows followed by the new one — and it succeeds for every
row passing the column constraints with a fresh primary key, with no check
of `sequenceNumber`: a duplicate `(conversationId, sequenceNumber)` pair
is accepted, never rejected with `StorageError.Conflict` (the schema has
no unique constraint that could raise one). -/
theorem c2_insert_only_no_conflict (t : List ConversationRow)
    (r : ConversationRow) (hr : rowValid r = true)
    (hid : t.all (fun x => x.id != r.id) = true) :
    insertTurn t r = .ok (t ++ [r]) := by
  unfold insertTurn
  rw [hr, hid]
  rfl

/-- C2 witness: `rowDup` duplicates `rowU1`'s sequence number in
conversation `"w"` and is nevertheless inserted successfully. -/
theorem c2_insert_only_no_conflict_witness :
    insertTurn [rowU1] rowDup = .ok ([rowU1] ++ [rowDup]) :=
  c2_insert_only_no_conflict [rowU1] rowDup (by rfl) (by decide)

/-- C5 counterexample: the speaker check constraint of the turn store
accepts the tag `'response'` — which is neither `'user'` nor
`'assistant'` — and rejects the tag `'assistant'`; so it is false that
every storable turn has speaker `'user'` or `'assistant'`, and false that
the column admits exactly those two tags. -/
theorem c5_counterexample :
    rowValid ⟨10, "w", "response", "hi", 3, 7⟩ = true
    ∧ rowValid ⟨11, "w", "assistant", "hi", 4, 7⟩ = false
    ∧ ("response" ≠ "user" ∧ "response" ≠ "assistant") := by
  refine ⟨rfl, rfl, by decide⟩

/-- C5 (amended): a turn row passes the store's check constraint exactly
when its speaker is `'user'` or `'response'` (the spec's `assistant` tag
is realized as the string `'response'`); and insertion is append-only —
a successful insert leaves every previously persisted row unchanged, so a
persisted turn is never mutated by the write path. -/
theorem c5_speaker_tags (r : ConversationRow) :
    (rowValid r = true ↔ r.speaker = "user" ∨ r.speaker = "response")
    ∧ (∀ t u, insertTurn t r = .ok u → u = t ++ [r] ∧ rowValid r = true) := by
  constructor
  · simp [rowValid, speakerValid]
  · intro t u h
    unfold insertTurn at h
    by_cases hc : (rowValid r && t.all (fun x => x.id != r.id)) = true
    · rw [if_pos hc] at h
      refine ⟨(Except.ok.inj h).symm, ?_⟩
      exact ((Bool.and_eq_true _ _).mp hc).1
    · rw [if_neg hc] at h
      exact Except.noConfusion h

/-- C5 witness: `rowR1` (speaker `'response'`) passes the constraint. -/
theorem c5_speaker_tags_witness : rowValid rowR1 = true :=
  (c5_speaker_tags rowR1).1.mpr (Or.inr rfl)

/-- Helper: a snapshot check that returns a reply found it as the text of
a `speaker = 'response'` row among the rows past the baseline. -/
theorem checkSnapshot_some (init : Nat) (s : List ConversationRow)
    (reply : String) (h : checkSnapshot init s = some reply) :
    ∃ row ∈ s.drop init, row.speaker = "response" ∧ row.message = reply := by
  unfold checkSnapshot at h
  by_cases hl : s.length > init
  · rw [if_pos hl] at h
    obtain ⟨row, hfind, hmsg⟩ := Option.map_eq_some'.mp h
    refine ⟨row, List.mem_of_find?_eq_some hfind, ?_, hmsg⟩
    have := List.find?_some hfind
    simpa using this
  · rw [if_neg hl] at h
    exact Option.noConfusion h

/-- Helper: if a `'response'` row exists past the baseline, the snapshot
check does not come back empty. -/
theorem checkSnapshot_finds (init : Nat) (s : List ConversationRow)
    (row : ConversationRow) (hmem : row ∈ s.drop init)
    (hsp : row.speaker = "response") : checkSnapshot init s ≠ none := by
  have hl : s.length > init := by
    by_contra hle
    rw [List.drop_eq_nil_of_le (Nat.le_of_not_lt hle)] at hmem
    exact List.not_mem_nil row hmem
  unfold checkSnapshot
  rw [if_pos hl]
  have hsome : ((s.drop init).find? (fun m => m.speaker == "response")).isSome := by
    rw [List.find?_isSome]
    exact ⟨row, hmem, by simp [hsp]⟩
  obtain ⟨m, hm⟩ := Option.isSome_iff_exists.mp hsome
  rw [hm]
  exact Option.noConfusion

/-- C3: the reply-retrieval wait loop.  (1) If no poll iteration's
snapshot contains a new `'response'` row beyond the baseline, the loop
returns the fixed degraded-reply fallback string — in particular when
every iteration's query fails, and at timeout (iterations exhausted).
(2) As soon as an iteration's snapshot yields a reply, that reply is
returned.  (3) Any reply the snapshot check yields is the text of a
`speaker = 'response'` row positioned beyond the baseline.  (4) The check
cannot miss: whenever such a row exists in a snapshot, the check returns
a reply.  Failing iterations (`none`) are skipped, not surfaced as
errors. -/
theorem c3_waitForResponse_poll_or_fallback (init : Nat) :
    (∀ polls : List (Option (List ConversationRow)),
        (∀ s, some s ∈ polls → checkSnapshot init s = none) →
          waitForResponse init polls = timeoutFallback)
    ∧ (∀ s rest reply, checkSnapshot init s = some reply →
          waitForResponse init (some s :: rest) = reply)
    ∧ (∀ s reply, checkSnapshot init s = some reply →
          ∃ row ∈ s.drop init, row.speaker = "response" ∧ row.message = reply)
    ∧ (∀ s row, row ∈ s.drop init → row.speaker = "response" →
          checkSnapshot init s ≠ none) := by
  refine ⟨?_, ?_, ?_, ?_⟩
  · intro polls
    induction polls with
    | nil => intro _; rfl
    | cons o rest ih =>
      intro h
      cases o with
      | none =>
        show waitForResponse init rest = timeoutFallback
        exact ih (fun s hs => h s (List.mem_cons_of_mem _ hs))
      | some s =>
        have hnone : checkSnapshot init s = none := h s (List.mem_cons_self _ _)
        show (match checkSnapshot init s with
          | some reply => reply
          | none => waitForResponse init rest) = timeoutFallback
        rw [hnone]
        exact ih (fun s' hs' => h s' (List.mem_cons_of_mem _ hs'))
  · intro s rest reply h
    show (match checkSnapshot init s with
      | some reply => reply
      | none => waitForResponse init rest) = reply
    rw [h]
  · exact fun s reply h => checkSnapshot_some init s reply h
  · exact fun s row hmem hsp => checkSnapshot_finds init s row hmem hsp

/-- C3 witness: with a baseline of 1 and a single successful poll whose
snapshot is `[rowU1, rowR1]`, the loop returns `rowR1`'s text; and with no
successful polls it returns the fallback string. -/
theorem c3_waitForResponse_poll_or_fallback_witness :
    waitForResponse 1 [some [rowU1, rowR1]] = "hi there"
    ∧ waitForResponse 1 [none] = timeoutFallback :=
  ⟨(c3_waitForResponse_poll_or_fallback 1).2.1 [rowU1, rowR1] [] "hi there" rfl,
    (c3_waitForResponse_poll_or_fallback 1).1 [none]
      (by intro s hs; simp at hs)⟩

/-- C10: if the baseline count query throws, `getMessageCount` returns 0
instead of propagating the error; consequently, in the send-and-wait POST,
`waitForResponse` runs with baseline 0, treats every already-persisted row
as new, and returns the first `'response'` row of the first successful
poll snapshot — an assistant turn that may have been persisted before the
current submission — as the reply, with status 200. -/
theorem c10_count_error_stale_reply (i : SWInputs)
    (row : ConversationRow) (s : List ConversationRow) (tk : String)
    (htok : i.token = some tk) (hval : i.tokenValid = true)
    (huser : i.userFound = true) (hmsg : truthy i.message = true)
    (hsid : truthy i.sessionId = true) (hcq : i.countQuery = .error ())
    (hscr : i.script = .ok ()) (hpolls : i.polls = [some s])
    (hfind : s.find? (fun m => m.speaker == "response") = some row)
    (hlen : 0 < s.length) :
    getMessageCount (.error ()) = 0
    ∧ (sendAndWaitPOST i).status = 200
    ∧ (sendAndWaitPOST i).body = .response row.message := by
  refine ⟨rfl, ?_⟩
  obtain ⟨tok, valid, found, msg, sid, cq, scr, polls⟩ := i
  simp only at htok hval huser hmsg hsid hcq hscr hpolls
  subst htok hval huser hcq hscr hpolls
  have hbody : sendAndWaitPOST ⟨some tk, true, true, msg, sid, .error (), .ok (), [some s]⟩
      = ⟨200, .response (waitForResponse (getMessageCount (.error ())) [some s]),
          [.convQuery, .invokeChatbot, .convQuery]⟩ := by
    unfold sendAndWaitPOST
    simp [hmsg, hsid]
  rw [hbody]
  refine ⟨rfl, ?_⟩
  have hwr : waitForResponse (getMessageCount (.error ())) [some s] = row.message := by
    show (match checkSnapshot 0 s with
      | some reply => reply
      | none => waitForResponse 0 []) = row.message
    have hcs : checkSnapshot 0 s = some row.message := by
      unfold checkSnapshot
      rw [if_pos hlen, List.drop_zero, hfind]
      rfl
    rw [hcs]
  rw [hwr]

/-- C10 witness: the count query fails, the table already holds the
assistant row `rowR1` from an earlier turn, and the route answers 200 with
`rowR1`'s text as the reply to the new message. -/
theorem c10_count_error_stale_reply_witness :
    (sendAndWaitPOST ⟨some "tok", true, true, some "new question", some "w",
        .error (), .ok (), [some [rowU1, rowR1]]⟩).body = .response "hi there" := by
  have h := c10_count_error_stale_reply
    ⟨some "tok", true, true, some "new question", some "w",
      .error (), .ok (), [some [rowU1, rowR1]]⟩
    rowR1 [rowU1, rowR1] "tok" rfl rfl rfl (by decide) (by decide) rfl rfl rfl
    (by decide) (by decide)
  exact h.2.2

/-- C4 counterexample: with valid authentication and a failing listing
query, the history route answers HTTP 200 carrying an empty conversations
list — a successful response with default data, not a failure response.
So a read failure against the turn store is not surfaced to the caller. -/
theorem c4_counterexample :
    (historyGET ⟨some "tok", true, true, 7, none, .error (), .error (), .error ()⟩).status
        = 200
    ∧ (historyGET ⟨some "tok", true, true, 7, none, .error (), .error (), .error ()⟩).body
        = .conversations [] :=
  ⟨rfl, rfl⟩

/-- C4 (amended): read failures in the history path are swallowed, not
surfaced: for every authenticated request, if the listing query throws,
`getAllConversations` returns `[]` and the route answers 200 with that
empty list; if the per-conversation messages query throws,
`getConversation` returns null and the route answers 200 with a null
conversation.  Only exceptions escaping to the route handler itself
produce a 500. -/
theorem c4_read_errors_become_defaults (i : HistInputs) (tk : String)
    (htok : i.token = some tk) (hval : i.tokenValid = true)
    (huser : i.userFound = true) :
    (i.workflowIdParam = none → i.listQ = .error () →
        (historyGET i).status = 200 ∧ (historyGET i).body = .conversations [])
    ∧ (∀ wid, i.workflowIdParam = some wid → i.convQ = .error () →
        (historyGET i).status = 200 ∧ (historyGET i).body = .conversation none) := by
  obtain ⟨tok, valid, found, uid, p, cq, sq, lq⟩ := i
  simp only at htok hval huser
  subst htok hval huser
  constructor
  · intro hp hl
    simp only at hp hl
    subst hp hl
    exact ⟨rfl, rfl⟩
  · intro wid hp hc
    simp only at hp hc
    subst hp hc
    refine ⟨rfl, ?_⟩
    show HistoryBody.conversation (getConversation uid wid (.error ()) sq)
        = .conversation none
    cases sq <;> rfl

/-- C4 witness: both failing-read branches at concrete inputs. -/
theorem c4_read_errors_become_defaults_witness :
    (historyGET ⟨some "tok", true, true, 7, some "w", .error (), .ok [], .ok []⟩).body
      = .conversation none :=
  ((c4_read_errors_become_defaults
      ⟨some "tok", true, true, 7, some "w", .error (), .ok [], .ok []⟩
      "tok" rfl rfl rfl).2 "w" rfl rfl).2

/-- C8: the submit route is fire-and-observe.  For every authenticated
request whose message and sessionId are non-empty: a successful hand-off
to the backend script is answered 200 with the fixed enqueued-style
acknowledgment `sendAck` — a constant string that cannot contain the
assistant's reply (the reply is retrieved separately by the poll paths,
`waitForResponse` and the history route); a failed hand-off is answered
500 with an error body, not an acknowledgment. -/
theorem c8_submit_ack_decoupled (i : SendInputs) (tk : String)
    (htok : i.token = some tk) (hval : i.tokenValid = true)
    (huser : i.userFound = true) (hmsg : truthy i.message = true)
    (hsid : truthy i.sessionId = true) :
    (i.script = .ok () → sendPOST i = ⟨200, .response sendAck, [.invokeChatbot]⟩)
    ∧ (∀ e, i.script = .error e →
        sendPOST i = ⟨500, .errorMsg "Internal server error", [.invokeChatbot]⟩) := by
  obtain ⟨tok, valid, found, msg, sid, scr⟩ := i
  simp only at htok hval huser hmsg hsid
  subst htok hval huser
  constructor
  · intro hs
    simp only at hs
    subst hs
    unfold sendPOST
    simp [hmsg, hsid]
  · intro e hs
    simp only at hs
    subst hs
    unfold sendPOST
    simp [hmsg, hsid]

/-- C8 witness: a successful submission answers 200 with the constant
acknowledgment, which is not the assistant's reply. -/
theorem c8_submit_ack_decoupled_witness :
    sendPOST ⟨some "tok", true, true, some "hi", some "s1", .ok ()⟩
      = ⟨200, .response sendAck, [.invokeChatbot]⟩ :=
  (c8_submit_ack_decoupled ⟨some "tok", true, true, some "hi", some "s1", .ok ()⟩
    "tok" rfl rfl rfl (by decide) (by decide)).1 rfl

/-- Helper for C9: the send route performs no conversation-store or
backend effect and answers 401/404 when authentication is denied. -/
theorem sendPOST_denied (a : SendInputs)
    (h : authDenied a.token a.tokenValid a.userFound) :
    ((sendPOST a).status = 401 ∨ (sendPOST a).status = 404)
    ∧ (sendPOST a).effects = [] := by
  obtain ⟨tok, valid, found, msg, sid, scr⟩ := a
  simp only [authDenied] at h
  cases tok with
  | none => exact ⟨Or.inl rfl, rfl⟩
  | some tk =>
    rcases h with h | h | h
    · exact Option.noConfusion h
    · subst h
      exact ⟨Or.inl rfl, rfl⟩
    · subst h
      cases valid with
      | false => exact ⟨Or.inl rfl, rfl⟩
      | true => exact ⟨Or.inr rfl, rfl⟩

/-- Helper for C9: same for the send-and-wait route. -/
theorem sendAndWaitPOST_denied (b : SWInputs)
    (h : authDenied b.token b.tokenValid b.userFound) :
    ((sendAndWaitPOST b).status = 401 ∨ (sendAndWaitPOST b).status = 404)
    ∧ (sendAndWaitPOST b).effects = [] := by
  obtain ⟨tok, valid, found, msg, sid, cq, scr, polls⟩ := b
  simp only [authDenied] at h
  cases tok with
  | none => exact ⟨Or.inl rfl, rfl⟩
  | some tk =>
    rcases h with h | h | h
    · exact Option.noConfusion h
    · subst h
      exact ⟨Or.inl rfl, rfl⟩
    · subst h
      cases valid with
      | false => exact ⟨Or.inl rfl, rfl⟩
      | true => exact ⟨Or.inr rfl, rfl⟩

/-- Helper for C9: same for the history route. -/
theorem historyGET_denied (c : HistInputs)
    (h : authDenied c.token c.tokenValid c.userFound) :
    ((historyGET c).status = 401 ∨ (historyGET c).status = 404)
    ∧ (historyGET c).effects = [] := by
  obtain ⟨tok, valid, found, uid, p, cq, sq, lq⟩ := c
  simp only [authDenied] at h
  cases tok with
  | none => exact ⟨Or.inl rfl, rfl⟩
  | some tk =>
    rcases h with h | h | h
    · exact Option.noConfusion h
    · subst h
      exact ⟨Or.inl rfl, rfl⟩
    · subst h
      cases valid with
      | false => exact ⟨Or.inl rfl, rfl⟩
      | true => exact ⟨Or.inr rfl, rfl⟩

/-- C9: on every inbound request to the chat submit, send-and-wait, and
history routes, if the token cookie is absent, fails verification, or
resolves to no user, the route answers 401 or 404 and performs no chatbot
invocation and no query or poll against the conversation store (its
effect list is empty). -/
theorem c9_unauthenticated_no_side_effects (a : SendInputs) (b : SWInputs)
    (c : HistInputs) (ha : authDenied a.token a.tokenValid a.userFound)
    (hb : authDenied b.token b.tokenValid b.userFound)
    (hc : authDenied c.token c.tokenValid c.userFound) :
    (((sendPOST a).status = 401 ∨ (sendPOST a).status = 404)
        ∧ (sendPOST a).effects = [])
    ∧ (((sendAndWaitPOST b).status = 401 ∨ (sendAndWaitPOST b).status = 404)
        ∧ (sendAndWaitPOST b).effects = [])
    ∧ (((historyGET c).status = 401 ∨ (historyGET c).status = 404)
        ∧ (historyGET c).effects = []) :=
  ⟨sendPOST_denied a ha, sendAndWaitPOST_denied b hb, historyGET_denied c hc⟩

/-- C9 witness: a missing cookie on the send route, a failed verification
on the send-and-wait route, and a missing user on the history route all
leave the conversation store untouched. -/
theorem c9_unauthenticated_no_side_effects_witness :
    (sendPOST ⟨none, true, true, some "m", some "s", .ok ()⟩).effects = []
    ∧ (sendAndWaitPOST ⟨some "t", false, true, some "m", some "s",
        .ok 0, .ok (), []⟩).effects = []
    ∧ (historyGET ⟨some "t", true, false, 7, none, .ok [], .ok [], .ok []⟩).effects
        = [] := by
  have h := c9_unauthenticated_no_side_effects
    ⟨none, true, true, some "m", some "s", .ok ()⟩
    ⟨some "t", false, true, some "m", some "s", .ok 0, .ok (), []⟩
    ⟨some "t", true, false, 7, none, .ok [], .ok [], .ok []⟩
    (Or.inl rfl) (Or.inr (Or.inl rfl)) (Or.inr (Or.inr rfl))
  exact ⟨h.1.2, h.2.1.2, h.2.2.2⟩

/-- C7: the history read path returns, for every table state, user and
conversation id, a permutation of exactly the conversation's persisted
rows, sorted by ascending `message_order`; under the writer invariant that
the conversation's sequence numbers are pairwise distinct, the order is
strictly ascending. -/
theorem c7_loadHistory_sorted (t : List ConversationRow) (uid : Nat)
    (wid : String) :
    (loadHistory t uid wid).Perm (convRows t uid wid)
    ∧ (loadHistory t uid wid).Sorted byOrder
    ∧ (((convRows t uid wid).map (fun r => r.message_order)).Nodup →
        (loadHistory t uid wid).Sorted strictByOrder) := by
  refine ⟨List.perm_insertionSort byOrder _, List.sorted_insertionSort byOrder _, ?_⟩
  intro hnd
  have hperm : (loadHistory t uid wid).Perm (convRows t uid wid) :=
    List.perm_insertionSort byOrder _
  have hnd₂ : ((loadHistory t uid wid).map (fun r => r.message_order)).Nodup :=
    ((hperm.map _).nodup_iff).mpr hnd
  have hne : (loadHistory t uid wid).Pairwise
      (fun a b => a.message_order ≠ b.message_order) :=
    List.pairwise_map.mp hnd₂
  have hle : (loadHistory t uid wid).Pairwise byOrder :=
    List.sorted_insertionSort byOrder _
  exact (hle.and hne).imp (fun h => lt_of_le_of_ne h.1 h.2)

/-- C7 witness: on a table holding `rowR1` before `rowU1`, the read path
returns them strictly ordered by sequence number. -/
theorem c7_loadHistory_sorted_witness :
    (loadHistory [rowR1, rowU1] 7 "w").Sorted strictByOrder :=
  (c7_loadHistory_sorted [rowR1, rowU1] 7 "w").2.2 (by decide)

/-- Helper for C6: a list of summary rows with pairwise-distinct workflow
ids holds at most one row for any given workflow id. -/
theorem summaries_filter_length_le_one (wid : String) :
    ∀ t : List SummaryRow, (t.map (fun s => s.workflow_id)).Nodup →
      (t.filter (fun s => s.workflow_id == wid)).length ≤ 1 := by
  intro t
  induction t with
  | nil => intro _; simp
  | cons a t ih =>
    intro h
    rw [List.map_cons, List.nodup_cons] at h
    by_cases ha : (a.workflow_id == wid) = true
    · have haw : a.workflow_id = wid := by simpa using ha
      have hnil : t.filter (fun s => s.workflow_id == wid) = [] := by
        rw [List.filter_eq_nil_iff]
        intro b hb hpb
        have hbw : b.workflow_id = wid := by simpa using hpb
        exact h.1 ((haw.trans hbw.symm) ▸ List.mem_map_of_mem _ hb)
      rw [List.filter_cons, if_pos ha, hnil]
      simp
    · rw [List.filter_cons, if_neg ha]
      exact ih h.2

/-- C6: at most one live summary row per conversation, with upsert
semantics.  (1) Every table state the `conversation_summaries` schema can
hold (its `workflow_id` column is `UNIQUE`) contains at most one row per
conversation id.  (2) `upsertSummary` preserves admissibility and leaves
the conversation with exactly one row, whose summary is the written text:
it creates the row if absent and otherwise overwrites it in place, never
producing a second row for the same conversation. -/
theorem c6_summary_uniqueness :
    (∀ t : List SummaryRow, summariesAdmissible t → ∀ wid,
        (t.filter (fun s => s.workflow_id == wid)).length ≤ 1)
    ∧ (∀ t wid text fid uid, summariesAdmissible t →
        fid ∉ t.map (fun s => s.id) →
        summariesAdmissible (upsertSummary t wid text fid uid)
        ∧ ∃ r, (upsertSummary t wid text fid uid).filter
              (fun s => s.workflow_id == wid) = [r]
            ∧ r.summary = some text ∧ r.workflow_id = wid) := by
  constructor
  · intro t ht wid
    exact summaries_filter_length_le_one wid t ht.2
  · intro t wid text fid uid ht hfid
    by_cases hany : (t.any (fun s => s.workflow_id == wid)) = true
    · -- a row for the conversation exists: overwrite in place
      have hup : upsertSummary t wid text fid uid
          = t.map (fun s => if s.workflow_id == wid
              then { s with summary := some text } else s) := by
        unfold upsertSummary
        rw [if_pos hany]
      have hgid : (fun s : SummaryRow => s.id) ∘
          (fun s => if s.workflow_id == wid
            then { s with summary := some text } else s) = fun s => s.id := by
        funext s
        simp only [Function.comp_apply]
        by_cases hs : s.workflow_id = wid
        · simp [hs]
        · simp [hs]
      have hgw : (fun s : SummaryRow => s.workflow_id) ∘
          (fun s => if s.workflow_id == wid
            then { s with summary := some text } else s)
          = fun s => s.workflow_id := by
        funext s
        simp only [Function.comp_apply]
        by_cases hs : s.workflow_id = wid
        · simp [hs]
        · simp [hs]
      have hgp : ((fun s : SummaryRow => s.workflow_id == wid) ∘
          (fun s => if s.workflow_id == wid
            then { s with summary := some text } else s))
          = fun s => s.workflow_id == wid := by
        funext s
        simp only [Function.comp_apply]
        by_cases hs : s.workflow_id = wid
        · simp [hs]
        · simp [hs]
      constructor
      · rw [hup]
        refine ⟨?_, ?_⟩
        · rw [List.map_map, hgid]; exact ht.1
        · rw [List.map_map, hgw]; exact ht.2
      · obtain ⟨s₀, hs₀mem, hs₀p⟩ := List.any_eq_true.mp hany
        have hlen₁ : 1 ≤ (t.filter (fun s => s.workflow_id == wid)).length := by
          have : s₀ ∈ t.filter (fun s => s.workflow_id == wid) :=
            List.mem_filter.mpr ⟨hs₀mem, hs₀p⟩
          exact List.length_pos.mpr (List.ne_nil_of_mem this)
        have hlen : (t.filter (fun s => s.workflow_id == wid)).length = 1 :=
          le_antisymm (summaries_filter_length_le_one wid t ht.2) hlen₁
        obtain ⟨r₀, hr₀⟩ := List.length_eq_one.mp hlen
        have hr₀p : (r₀.workflow_id == wid) = true := by
          have : r₀ ∈ t.filter (fun s => s.workflow_id == wid) := by
            rw [hr₀]; exact List.mem_singleton_self _
          exact (List.mem_filter.mp this).2
        have hr₀w : r₀.workflow_id = wid := by simpa using hr₀p
        refine ⟨{ r₀ with summary := some text }, ?_, rfl, hr₀w⟩
        rw [hup, List.filter_map, hgp, hr₀]
        have : (if (r₀.workflow_id == wid) = true
            then ({ r₀ with summary := some text } : SummaryRow) else r₀)
            = { r₀ with summary := some text } := if_pos hr₀p
        simpa using this
    · -- no row for the conversation: append a fresh one
      have hup : upsertSummary t wid text fid uid
          = t ++ [⟨fid, wid, some text, uid⟩] := by
        unfold upsertSummary
        rw [if_neg hany]
      have hno : ∀ s ∈ t, s.workflow_id ≠ wid := by
        intro s hs he
        exact hany (List.any_eq_true.mpr ⟨s, hs, by simp [he]⟩)
      constructor
      · rw [hup]
        refine ⟨?_, ?_⟩
        · rw [List.map_append, List.nodup_append]
          refine ⟨ht.1, List.nodup_singleton _, ?_⟩
          intro x hx
          simp only [List.map_cons, List.map_nil, List.mem_singleton]
          intro he
          exact hfid (he ▸ hx)
        · rw [List.map_append, List.nodup_append]
          refine ⟨ht.2, List.nodup_singleton _, ?_⟩
          intro x hx
          simp only [List.map_cons, List.map_nil, List.mem_singleton]
          intro he
          obtain ⟨s, hs, hsx⟩ := List.mem_map.mp hx
          exact hno s hs (by rw [hsx, he])
      · refine ⟨⟨fid, wid, some text, uid⟩, ?_, rfl, rfl⟩
        rw [hup, List.filter_append]
        have h₁ : t.filter (fun s => s.workflow_id == wid) = [] := by
          rw [List.filter_eq_nil_iff]
          intro b hb hpb
          exact hno b hb (by simpa using hpb)
        rw [h₁]
        simp

/-- C6 witness: overwriting the existing summary of conversation `"w"`
keeps the table admissible with a single row for `"w"` carrying the new
text. -/
theorem c6_summary_uniqueness_witness :
    summariesAdmissible (upsertSummary [⟨1, "w", some "old", 7⟩] "w" "new" 2 7)
    ∧ ∃ r, (upsertSummary [⟨1, "w", some "old", 7⟩] "w" "new" 2 7).filter
          (fun s => s.workflow_id == "w") = [r]
        ∧ r.summary = some "new" ∧ r.workflow_id = "w" :=
  c6_summary_uniqueness.2 [⟨1, "w", some "old", 7⟩] "w" "new" 2 7
    (by constructor <;> decide) (by decide)

end DurableChatbot
